import Mathlib

/-!
Verification development for the task-messenger repository.

The definitions below are a shallow embedding of the C++ sources:

* `src/message/TaskMessage.hpp` — the wire codec (`TaskHeader`, `TaskMessage`,
  `read_header`, `payload`, `is_valid`, `wire_bytes`).  `TaskMessage` stores a
  contiguous byte buffer `storage_` holding the 12-byte header (`memcpy` of a
  struct of three `uint32_t` in declaration order `task_id`, `body_size`,
  `task_type`) followed by the payload bytes.  A `memcpy` of a `uint32_t`
  yields the host's byte order, so the codec is parametrised by a flag
  `isLE : Bool` (little-endian host or not); bytes are modelled as `Nat < 256`.
* `src/message/TaskMessagePool.cpp` — the awaitable task pool
  (`add_task`, `add_tasks`, `try_get_task_immediately`,
  `TaskAwaitable::await_suspend`, `await_resume`, `shutdown`).
* `src/manager/session/Session.cpp` — the session response classification,
  requeue and state transitions.
* `src/worker/runtime/BlockingRuntime.cpp` — the blocking frame reader
  (`read_task`) and response writer, and
  `src/worker/processor/TaskProcessor.cpp` — the skill dispatch switch.
-/

/-! ### Byte-level u32 codec

`memcpy` of a `uint32_t` writes the 4 bytes of the host representation.
`u32_bytes_le` is the little-endian representation; a big-endian host writes
the reversed bytes.  `u32_of_bytes` reads a `uint32_t` back out of 4 bytes
of the same host. -/

/-- Little-endian byte serialisation of a 32-bit value (4 bytes). -/
def u32_bytes_le (x : Nat) : List Nat :=
  [x % 256, x / 256 % 256, x / 65536 % 256, x / 16777216 % 256]

/-- Host-order byte serialisation of a `uint32_t`, as produced by `memcpy`
from a `uint32_t` field: little-endian bytes on a little-endian host,
the reversed bytes on a big-endian host. -/
def u32_bytes_host (isLE : Bool) (x : Nat) : List Nat :=
  if isLE then u32_bytes_le x else (u32_bytes_le x).reverse

/-- Value of 4 little-endian bytes. -/
def u32_of_bytes_le (bs : List Nat) : Nat :=
  bs.getD 0 0 + 256 * bs.getD 1 0 + 65536 * bs.getD 2 0 + 16777216 * bs.getD 3 0

/-- Value a `memcpy` into a `uint32_t` reads out of 4 bytes on the host. -/
def u32_of_bytes_host (isLE : Bool) (bs : List Nat) : Nat :=
  if isLE then u32_of_bytes_le bs else u32_of_bytes_le bs.reverse

/-! ### TaskHeader and its serialisation (src/message/TaskMessage.hpp:25-29)

`struct TaskHeader { uint32_t task_id; uint32_t body_size; uint32_t task_type; }`
is a standard-layout struct of three `uint32_t`: `sizeof(TaskHeader) = 12` and
the fields lie at byte offsets 0, 4, 8 in declaration order.  The third field
is called `skill_id` in the specification. -/

/-- Mirror of `TaskHeader`: `task_id`, `body_size`, `task_type`
(the spec's `skill_id`). -/
structure THeader where
  task_id : Nat
  body_size : Nat
  task_type : Nat
deriving DecidableEq

/-- The 12 bytes `memcpy` writes for a `TaskHeader` on a host with byte
order `isLE`: the three `uint32_t` fields in declaration order. -/
def header_bytes (isLE : Bool) (h : THeader) : List Nat :=
  u32_bytes_host isLE h.task_id ++ u32_bytes_host isLE h.body_size ++
    u32_bytes_host isLE h.task_type

/-- The `TaskHeader` that `memcpy` reads back out of the first 12 bytes of a
buffer on a host with byte order `isLE`. -/
def header_of_bytes (isLE : Bool) (bs : List Nat) : THeader :=
  { task_id := u32_of_bytes_host isLE (bs.take 4)
    body_size := u32_of_bytes_host isLE ((bs.drop 4).take 4)
    task_type := u32_of_bytes_host isLE ((bs.drop 8).take 4) }

/-- The specification's wire-header layout: 12 bytes, three little-endian
u32 in the order `task_id`, `body_size`, `skill_id`
(spec.md section 6, "Wire protocol"). -/
def le_wire_header (h : THeader) : List Nat :=
  [h.task_id % 256, h.task_id / 256 % 256, h.task_id / 65536 % 256,
   h.task_id / 16777216 % 256,
   h.body_size % 256, h.body_size / 256 % 256, h.body_size / 65536 % 256,
   h.body_size / 16777216 % 256,
   h.task_type % 256, h.task_type / 256 % 256, h.task_type / 65536 % 256,
   h.task_type / 16777216 % 256]

/-! ### TaskMessage (src/message/TaskMessage.hpp:35-167) -/

/-- Mirror of `TaskMessage`: the contiguous byte buffer `storage_`
(header followed by payload).  The creation timestamp is timing metadata not
touched by any claim and is omitted. -/
structure TaskMessageM where
  storage : List Nat
deriving DecidableEq

/-- `kHeaderSize = sizeof(TaskHeader)`. -/
def kHeaderSize : Nat := 12

/-- The value-constructing `TaskMessage(uint32_t id, uint32_t type,
std::string task_data)` (TaskMessage.hpp:45-57): allocates
`kHeaderSize + task_data.size()` bytes, throws `std::length_error` when the
payload exceeds `uint32_t` range (`validate_payload_size`), writes the header
with `body_size = task_data.size()` by `memcpy`, then copies the payload. -/
def mkTaskMessage (isLE : Bool) (id type : Nat) (task_data : List Nat) :
    Except String TaskMessageM :=
  if 4294967295 < task_data.length then
    .error "TaskMessage payload exceeds protocol limits"
  else
    .ok { storage := header_bytes isLE { task_id := id, body_size := task_data.length, task_type := type } ++ task_data }

/-- The default constructor `TaskMessage()` (TaskMessage.hpp:37-39):
`storage_(kHeaderSize, 0)` — 12 zero bytes, an all-zero header, no payload. -/
def defaultTaskMessage : TaskMessageM :=
  { storage := List.replicate kHeaderSize 0 }

/-- `TaskMessage::read_header` (TaskMessage.hpp:135-141): a zero-initialised
header, overwritten by `memcpy` from the first 12 bytes when the buffer holds
at least 12 bytes. -/
def TaskMessageM.read_header (isLE : Bool) (m : TaskMessageM) : THeader :=
  if kHeaderSize ≤ m.storage.length then header_of_bytes isLE (m.storage.take kHeaderSize)
  else { task_id := 0, body_size := 0, task_type := 0 }

/-- `TaskMessage::payload_bytes` / `payload` (TaskMessage.hpp:79-82,121-123):
the bytes after the header. -/
def TaskMessageM.payload_bytes (m : TaskMessageM) : List Nat :=
  m.storage.drop kHeaderSize

/-- `TaskMessage::wire_bytes` (TaskMessage.hpp:125-127): the whole buffer. -/
def TaskMessageM.wire_bytes (m : TaskMessageM) : List Nat :=
  m.storage

/-- `TaskMessage::task_id` (TaskMessage.hpp:61). -/
def TaskMessageM.task_id (isLE : Bool) (m : TaskMessageM) : Nat :=
  (m.read_header isLE).task_id

/-- `TaskMessage::task_type` (TaskMessage.hpp:68). -/
def TaskMessageM.task_type (isLE : Bool) (m : TaskMessageM) : Nat :=
  (m.read_header isLE).task_type

/-- `TaskMessage::is_valid` (TaskMessage.hpp:59):
`read_header().task_id != 0`. -/
def TaskMessageM.is_valid (isLE : Bool) (m : TaskMessageM) : Bool :=
  (m.read_header isLE).task_id != 0

/-- Decoding a received frame: `read_header` on the first 12 bytes, the
remaining bytes as payload (the reader consumes 12 bytes, then
`body_size` bytes). -/
def decodeWire (isLE : Bool) (bs : List Nat) : THeader × List Nat :=
  (TaskMessageM.read_header isLE { storage := bs }, bs.drop kHeaderSize)

/-! ### Task pool (src/message/TaskMessagePool.cpp)

State: a deque of tasks `tasks_`, a FIFO queue of waiters
`waiting_sessions_`, and the monotonic `shutdown_` flag.  Each waiter in the
source is `{std::coroutine_handle<> handle; TaskAwaitable* awaiter;}`; the
model keeps an identifier for the handle and whether `awaiter` is non-null
(`await_suspend` always enqueues `{handle, this}`, TaskMessagePool.cpp:56,
but `add_task` branches on `waiter.awaiter`, so the field is modelled).
Lock-protected critical sections of the source become atomic steps. -/

/-- A queued waiter: a coroutine handle (identifier) and whether its
`awaiter` pointer is non-null. -/
structure Waiter where
  wid : Nat
  hasAwaiter : Bool
deriving DecidableEq

/-- The pool state guarded by `mutex_` plus the atomic `shutdown_` flag. -/
structure PoolState where
  tasks_ : List TaskMessageM
  waiting_sessions_ : List Waiter
  shutdown_ : Bool
deriving DecidableEq

/-- The empty initial pool (`TaskMessagePool()` default construction). -/
def pool_init : PoolState :=
  { tasks_ := [], waiting_sessions_ := [], shutdown_ := false }

/-- What one producer-side step did with its task. -/
inductive PoolEvent where
  /-- The front waiter's result cell was filled with the task and the
  waiter was resumed (TaskMessagePool.cpp:70-73). -/
  | delivered (w : Waiter) (t : TaskMessageM)
  /-- The task was pushed at the back of the deque
  (TaskMessagePool.cpp:80). -/
  | enqueued (t : TaskMessageM)
  /-- Null-`awaiter` branch: the task was pushed at the back of the deque
  and the front waiter resumed without a result
  (TaskMessagePool.cpp:74-78). -/
  | enqueuedResumedNoResult (w : Waiter) (t : TaskMessageM)
  /-- The pool was shut down; the call returned and the task was discarded
  (TaskMessagePool.cpp:60-62). -/
  | dropped (t : TaskMessageM)
deriving DecidableEq

/-- The locked section of `TaskMessagePool::add_task`
(TaskMessagePool.cpp:64-81): prefer the oldest waiter, else push at the
back of the deque. -/
def add_task_locked (s : PoolState) (t : TaskMessageM) : PoolState × PoolEvent :=
  match s.waiting_sessions_ with
  | [] => ({ s with tasks_ := s.tasks_ ++ [t] }, .enqueued t)
  | w :: ws =>
    if w.hasAwaiter then
      ({ s with waiting_sessions_ := ws }, .delivered w t)
    else
      ({ s with tasks_ := s.tasks_ ++ [t], waiting_sessions_ := ws },
       .enqueuedResumedNoResult w t)

/-- `TaskMessagePool::add_task` (TaskMessagePool.cpp:59-82): early return
when shut down, otherwise the locked section. -/
def add_task (s : PoolState) (t : TaskMessageM) : PoolState × PoolEvent :=
  if s.shutdown_ then (s, .dropped t) else add_task_locked s t

/-- The loop of `TaskMessagePool::add_tasks` (TaskMessagePool.cpp:91-110):
per task, the same waiter-first logic as `add_task` (the lock is released
around each resume and reacquired). -/
def add_tasks_go (s : PoolState) : List TaskMessageM → PoolState × List PoolEvent
  | [] => (s, [])
  | t :: ts =>
    let r := add_task_locked s t
    let r2 := add_tasks_go r.1 ts
    (r2.1, r.2 :: r2.2)

/-- `TaskMessagePool::add_tasks` (TaskMessagePool.cpp:84-111): early return
when shut down (all tasks discarded), otherwise the per-task loop. -/
def add_tasks (s : PoolState) (ts : List TaskMessageM) : PoolState × List PoolEvent :=
  if s.shutdown_ then (s, ts.map .dropped) else add_tasks_go s ts

/-- `TaskMessagePool::try_get_task_immediately` (TaskMessagePool.cpp:147-160),
the body of `TaskAwaitable::await_ready`: `none` when shut down or empty,
else pop the front task. -/
def try_get_task_immediately (s : PoolState) : PoolState × Option TaskMessageM :=
  if s.shutdown_ then (s, none)
  else
    match s.tasks_ with
    | [] => (s, none)
    | t :: ts => ({ s with tasks_ := ts }, some t)

/-- How `TaskAwaitable::await_suspend` returned. -/
inductive SuspendOutcome where
  /-- Pool shut down: the coroutine was resumed immediately with the result
  cell still empty (TaskMessagePool.cpp:31-44). -/
  | resumedInvalid
  /-- A task was available: popped into the result cell, resumed
  (TaskMessagePool.cpp:46-53). -/
  | resumedWith (t : TaskMessageM)
  /-- No task: the coroutine was enqueued as a waiter
  (TaskMessagePool.cpp:55-56). -/
  | suspended
deriving DecidableEq

/-- `TaskAwaitable::await_suspend` (TaskMessagePool.cpp:30-57).  The pushed
waiter is `{handle, this}`, so its `awaiter` pointer is non-null. -/
def await_suspend (s : PoolState) (wid : Nat) : PoolState × SuspendOutcome :=
  if s.shutdown_ then (s, .resumedInvalid)
  else
    match s.tasks_ with
    | t :: ts => ({ s with tasks_ := ts }, .resumedWith t)
    | [] =>
      ({ s with waiting_sessions_ := s.waiting_sessions_ ++ [{ wid := wid, hasAwaiter := true }] },
       .suspended)

/-- `TaskMessagePool::shutdown` (TaskMessagePool.cpp:123-140): a
compare-and-swap on `shutdown_` — only the first call proceeds — then the
waiter queue is swapped out and every drained waiter resumed; their result
cells are never written, hence `none`. -/
def shutdownPool (s : PoolState) : PoolState × List (Waiter × Option TaskMessageM) :=
  if s.shutdown_ then (s, [])
  else
    ({ s with shutdown_ := true, waiting_sessions_ := [] },
     s.waiting_sessions_.map (fun w => (w, (none : Option TaskMessageM))))

/-- `TaskAwaitable::await_resume` (TaskMessagePool.hpp:42-47): the result
cell if filled, else a default-constructed (invalid) `TaskMessage`. -/
def await_resume (r : Option TaskMessageM) : TaskMessageM :=
  r.getD defaultTaskMessage

/-- One pool operation, as invoked by producers and consumers. -/
inductive PoolOp where
  | addTask (t : TaskMessageM)
  | addTasks (ts : List TaskMessageM)
  | tryGet
  | awaitSuspend (wid : Nat)
  | shutdown
deriving DecidableEq

/-- The state transition of one pool operation. -/
def pool_step (s : PoolState) : PoolOp → PoolState
  | .addTask t => (add_task s t).1
  | .addTasks ts => (add_tasks s ts).1
  | .tryGet => (try_get_task_immediately s).1
  | .awaitSuspend wid => (await_suspend s wid).1
  | .shutdown => (shutdownPool s).1

/-- Run a sequence of pool operations. -/
def pool_run (s : PoolState) (ops : List PoolOp) : PoolState :=
  ops.foldl pool_step s

/-- The spec's pool exclusion invariant: the task deque is empty or the
waiter queue is empty. -/
def pool_excl (s : PoolState) : Prop :=
  s.tasks_ = [] ∨ s.waiting_sessions_ = []

/-- Strengthened pool invariant: exclusion, plus every queued waiter was
pushed by `await_suspend` and so carries a non-null `awaiter`. -/
def pool_inv (s : PoolState) : Prop :=
  pool_excl s ∧ ∀ w ∈ s.waiting_sessions_, w.hasAwaiter = true

/-- Repeatedly pop tasks through `try_get_task_immediately` (at most `n`
pops), collecting what a consumer observes. -/
def drain : Nat → PoolState → List TaskMessageM
  | 0, _ => []
  | n + 1, s =>
    match try_get_task_immediately s with
    | (s2, some t) => t :: drain n s2
    | (_, none) => []

/-- Everything a consumer obtains by polling the pool dry. -/
def consume_all (s : PoolState) : List TaskMessageM :=
  drain s.tasks_.length s

/-! ### Session response handling (src/manager/session/Session.cpp:96-177) -/

/-- How the session classified one worker response. -/
inductive TaskOutcome where
  /-- `record_task_completed` (Session.cpp:125-128). -/
  | completed
  /-- `record_task_failed` and requeue into the shared pool
  (Session.cpp:100-107, 129-137). -/
  | failedRequeued
deriving DecidableEq

/-- The session's response classification (Session.cpp:100-137): a
`task_id` mismatch is a failure with requeue; a matching `task_id` with
matching skill id is completion; a skill-id mismatch is a failure with
requeue.  (The snapshot's `Session.cpp` calls the third header field
`skill_id`; `TaskMessage.hpp` declares it as `task_type`.) -/
def session_classify (req_task_id req_skill : Nat) (resp : THeader) : TaskOutcome :=
  if resp.task_id ≠ req_task_id then .failedRequeued
  else if resp.task_type = req_skill then .completed
  else .failedRequeued

/-- Effect on the shared pool of the session's handling of one response
for acquired task `t` (Session.cpp:100-137): on a failure classification
the very same `TaskMessage` is passed to `add_task`; on completion the pool
is untouched. -/
def session_handle_response (isLE : Bool) (t : TaskMessageM) (resp : THeader)
    (pool : PoolState) : PoolState :=
  match session_classify (t.task_id isLE) (t.task_type isLE) resp with
  | .completed => pool
  | .failedRequeued => (add_task pool t).1

/-- Effect on the shared pool of the session's `std::system_error` handler
with an acquired task (Session.cpp:142-149): requeue the task if it is
valid. -/
def session_io_error_requeue (isLE : Bool) (t : TaskMessageM) (pool : PoolState) :
    PoolState :=
  if t.is_valid isLE then (add_task pool t).1 else pool

/-- The sizes of the reads the session issues for one response
(Session.cpp:96-115): first `async_read_header` of 12 bytes; on a
correlation mismatch it requeues and continues without a body read;
otherwise it reads `response.body_size` bytes whenever that is nonzero —
with no upper bound. -/
def session_issued_reads (req_task_id : Nat) (resp : THeader) : List Nat :=
  kHeaderSize ::
    (if resp.task_id ≠ req_task_id then []
     else if 0 < resp.body_size then [resp.body_size] else [])

/-! ### Session state machine
(src/manager/session/Session.cpp, src/manager/session/SessionManager.cpp)

`update_state` is an unconditional atomic store (Session.cpp:255-257).
The stores reachable in the source: `run()` starts the coroutine which
stores `ACTIVE` (Session.cpp:51); the coroutine's exits store `TERMINATED`
(Session.cpp:156, 180) or `ERROR_STATE` (Session.cpp:162, 187);
`request_termination` stores `COMPLETING` unconditionally
(Session.cpp:207-213) and is invoked by `SessionManager::terminate_session`
and `terminate_all_sessions` (SessionManager.cpp:76-101) on every live
session, with no terminal-state guard. -/

/-- Mirror of `enum class SessionState` (Session.hpp:30-36). -/
inductive SessState where
  | INITIALIZING
  | ACTIVE
  | COMPLETING
  | TERMINATED
  | ERROR_STATE
deriving DecidableEq

/-- A state-changing operation on one session. -/
inductive SessOp where
  /-- `run()` → `run_coroutine` entry: `update_state(ACTIVE)`. -/
  | runStart
  /-- Coroutine exit via the normal path or a disconnect-class error:
  `update_state(TERMINATED)`. -/
  | coroExitTerminated
  /-- Coroutine exit via an unclassified I/O error or outer exception:
  `update_state(ERROR_STATE)`. -/
  | coroExitError
  /-- `request_termination`: `update_state(COMPLETING)`, unconditional. -/
  | requestTermination
deriving DecidableEq

/-- Each operation is an unconditional `state_.store`. -/
def session_step (_ : SessState) : SessOp → SessState
  | .runStart => .ACTIVE
  | .coroExitTerminated => .TERMINATED
  | .coroExitError => .ERROR_STATE
  | .requestTermination => .COMPLETING

/-- Terminal states per the spec (`Terminated`, `Error`); also exactly the
states `Session::is_completed` reports (Session.cpp:215-218). -/
def terminal_state : SessState → Bool
  | .TERMINATED => true
  | .ERROR_STATE => true
  | _ => false

/-- Valid operation sequences on one session: `run()` is called exactly
once, first (SessionManager.cpp:26-53 constructs the session and
immediately calls `run`); every other operation may occur at any later
time. -/
def session_valid_ops : List SessOp → Bool
  | [] => true
  | _ :: rest =>
    rest.all fun o => match o with
      | SessOp.runStart => false
      | _ => true

/-- All states a session passes through under `ops`, starting from the
constructor's `INITIALIZING` (Session.cpp:26). -/
def session_states (ops : List SessOp) : List SessState :=
  ops.scanl session_step SessState.INITIALIZING

/-- The state after running `ops` from `INITIALIZING`. -/
def session_state_after (ops : List SessOp) : SessState :=
  ops.foldl session_step SessState.INITIALIZING

/-! ### Worker runtime (src/worker/runtime/BlockingRuntime.cpp) and
task processing (src/worker/processor/TaskProcessor.cpp) -/

/-- The whitespace characters `std::stoll` skips (C locale `isspace`). -/
def isCppSpace (c : Char) : Bool :=
  c == ' ' || c == '\t' || c == '\n' || c == '\x0b' || c == '\x0c' || c == '\r'

/-- Decimal value of a digit run. -/
def digits_to_nat (cs : List Char) : Nat :=
  cs.foldl (fun acc c => acc * 10 + (c.toNat - 48)) 0

/-- Model of `std::stoll(payload)` (base 10): skip leading whitespace, an
optional sign, then a maximal nonempty digit run; `none` when no digits
(`std::invalid_argument`) or the value exceeds `long long` range
(`std::out_of_range`) — both are caught by the same handler in the
source. -/
def stollModel (s : String) : Option Int :=
  let cs := s.data.dropWhile fun c => isCppSpace c
  let signed : Int × List Char :=
    match cs with
    | '-' :: r => (-1, r)
    | '+' :: r => (1, r)
    | r => (1, r)
  let ds := signed.2.takeWhile fun c => c.isDigit
  if ds = [] then none
  else
    let v : Int := signed.1 * (digits_to_nat ds : Int)
    if v < -9223372036854775808 ∨ 9223372036854775807 < v then none
    else some v

/-- `TaskProcessor::process` (src/worker/processor/TaskProcessor.cpp:15-53):
the skill dispatch switch.  Skill 1 reverses the payload, skill 2 doubles a
parsed number (with overflow guard against half of `int` range), skill 3 is
a simulated file job, and any other skill id falls through to the `default`
branch returning a diagnostic string — with no error signalling beyond the
payload text. -/
def TaskProcessor.process (task_id skill_id : Nat) (payload : String) : String :=
  if skill_id = 1 then "Reversed: " ++ String.mk payload.data.reverse
  else if skill_id = 2 then
    match stollModel payload with
    | none => "Error: Invalid number format"
    | some parsed =>
      if 1073741823 < parsed ∨ parsed < -1073741824 then "Error: overflow"
      else "Double of " ++ payload ++ " is " ++ toString (parsed * 2)
  else if skill_id = 3 then "Processed file: " ++ payload ++ " (simulated)"
  else "Unknown skill_id: " ++ toString skill_id

/-- One iteration of `BlockingRuntime::run_loop` after a frame is read
(BlockingRuntime.cpp:199-212) combined with `write_response`
(BlockingRuntime.cpp:51-66): the response frame is
`TaskMessage(header.task_id, header.task_type, result)`, so its header
carries the request's `task_id` and `task_type` (skill id) with
`body_size` the byte length of the handler result. -/
def worker_response (h : THeader) (payload : String) : THeader × String :=
  let result := TaskProcessor.process h.task_id h.task_type payload
  ({ task_id := h.task_id, body_size := result.utf8ByteSize, task_type := h.task_type },
   result)

/-- The default of `read_task`'s `max_frame_size` parameter
(BlockingRuntime.cpp:21): 16 MiB. -/
def default_max_frame_size : Nat := 16 * 1024 * 1024

/-- The blocking frame reader `read_task` (BlockingRuntime.cpp:19-48) over
a stream modelled as the list of bytes the peer has sent (transport-level
`error_code` failures are outside the byte model).  Returns the outcome and
the sizes of the stream reads it issued, in order: the 12-byte header read
always; the body read only when the size check passed and `body_size > 0`
— an oversized `body_size` throws `std::errc::message_size` before any
body read. -/
def read_task (isLE : Bool) (input : List Nat) (max_frame_size : Nat) :
    Except String (THeader × List Nat) × List Nat :=
  if input.length < kHeaderSize then
    (.error "read_task: short header read", [kHeaderSize])
  else
    let header := header_of_bytes isLE (input.take kHeaderSize)
    if max_frame_size < header.body_size then
      (.error "read_task: body_size exceeds max_frame_size", [kHeaderSize])
    else if 0 < header.body_size then
      let rest := input.drop kHeaderSize
      if rest.length < header.body_size then
        (.error "read_task: short body read", [kHeaderSize, header.body_size])
      else
        (.ok (header, rest.take header.body_size), [kHeaderSize, header.body_size])
    else
      (.ok (header, []), [kHeaderSize])

/-! ### Codec lemmas -/

theorem u32_le_roundtrip (x : Nat) (hx : x < 4294967296) :
    u32_of_bytes_le (u32_bytes_le x) = x := by
  simp [u32_bytes_le, u32_of_bytes_le]
  omega

theorem u32_host_roundtrip (isLE : Bool) (x : Nat) (hx : x < 4294967296) :
    u32_of_bytes_host isLE (u32_bytes_host isLE x) = x := by
  cases isLE <;>
    simp [u32_bytes_host, u32_of_bytes_host, u32_le_roundtrip x hx]

theorem u32_bytes_host_length (isLE : Bool) (x : Nat) :
    (u32_bytes_host isLE x).length = 4 := by
  cases isLE <;> simp [u32_bytes_host, u32_bytes_le]

theorem header_bytes_length (isLE : Bool) (h : THeader) :
    (header_bytes isLE h).length = 12 := by
  simp [header_bytes, u32_bytes_host_length]

theorem length_four_explicit (l : List Nat) (h : l.length = 4) :
    ∃ a b c d, l = [a, b, c, d] := by
  match l, h with
  | [a, b, c, d], _ => exact ⟨a, b, c, d, rfl⟩

theorem header_roundtrip (isLE : Bool) (h : THeader)
    (h1 : h.task_id < 4294967296) (h2 : h.body_size < 4294967296)
    (h3 : h.task_type < 4294967296) :
    header_of_bytes isLE (header_bytes isLE h) = h := by
  obtain ⟨a0, a1, a2, a3, ha⟩ :=
    length_four_explicit _ (u32_bytes_host_length isLE h.task_id)
  obtain ⟨b0, b1, b2, b3, hb⟩ :=
    length_four_explicit _ (u32_bytes_host_length isLE h.body_size)
  obtain ⟨c0, c1, c2, c3, hc⟩ :=
    length_four_explicit _ (u32_bytes_host_length isLE h.task_type)
  unfold header_of_bytes header_bytes
  rw [ha, hb, hc]
  simp only [List.cons_append, List.nil_append, List.take, List.drop]
  rw [← ha, ← hb, ← hc]
  rw [u32_host_roundtrip isLE _ h1, u32_host_roundtrip isLE _ h2,
      u32_host_roundtrip isLE _ h3]

/-! ### Pool invariant lemmas -/

theorem add_task_locked_no_waiters (s : PoolState) (t : TaskMessageM)
    (h : s.waiting_sessions_ = []) :
    add_task_locked s t = ({ s with tasks_ := s.tasks_ ++ [t] }, PoolEvent.enqueued t) := by
  unfold add_task_locked
  rw [h]

theorem add_task_locked_front_waiter (s : PoolState) (t : TaskMessageM)
    (w : Waiter) (ws : List Waiter) (h : s.waiting_sessions_ = w :: ws)
    (hA : w.hasAwaiter = true) :
    add_task_locked s t = ({ s with waiting_sessions_ := ws }, PoolEvent.delivered w t) := by
  unfold add_task_locked
  rw [h]
  simp [hA]

theorem pool_inv_add_task_locked (s : PoolState) (t : TaskMessageM)
    (h : pool_inv s) : pool_inv (add_task_locked s t).1 := by
  obtain ⟨hx, hw⟩ := h
  cases hws : s.waiting_sessions_ with
  | nil =>
    rw [add_task_locked_no_waiters s t hws]
    exact ⟨Or.inr hws, hw⟩
  | cons w ws =>
    have hA : w.hasAwaiter = true := hw w (by rw [hws]; exact List.mem_cons_self w ws)
    have ht : s.tasks_ = [] := by
      rcases hx with h1 | h1
      · exact h1
      · rw [hws] at h1; cases h1
    rw [add_task_locked_front_waiter s t w ws hws hA]
    refine ⟨Or.inl ht, ?_⟩
    intro w2 hw2
    exact hw w2 (by rw [hws]; exact List.mem_cons_of_mem w hw2)

theorem pool_inv_add_tasks_go (ts : List TaskMessageM) :
    ∀ s : PoolState, pool_inv s → pool_inv (add_tasks_go s ts).1 := by
  induction ts with
  | nil => intro s h; exact h
  | cons t ts ih =>
    intro s h
    exact ih _ (pool_inv_add_task_locked s t h)

theorem pool_inv_step (s : PoolState) (op : PoolOp) (h : pool_inv s) :
    pool_inv (pool_step s op) := by
  obtain ⟨hx, hw⟩ := h
  cases op with
  | addTask t =>
    unfold pool_step add_task
    by_cases hs : s.shutdown_
    · simpa [hs] using ⟨hx, hw⟩
    · simpa [hs] using pool_inv_add_task_locked s t ⟨hx, hw⟩
  | addTasks ts =>
    unfold pool_step add_tasks
    by_cases hs : s.shutdown_
    · simpa [hs] using ⟨hx, hw⟩
    · simpa [hs] using pool_inv_add_tasks_go ts s ⟨hx, hw⟩
  | tryGet =>
    unfold pool_step try_get_task_immediately
    by_cases hs : s.shutdown_
    · simpa [hs] using ⟨hx, hw⟩
    · cases hts : s.tasks_ with
      | nil => simpa [hs, hts] using ⟨hx, hw⟩
      | cons t ts =>
        have hwe : s.waiting_sessions_ = [] := by
          rcases hx with h1 | h1
          · rw [hts] at h1; cases h1
          · exact h1
        simp only [hs, hts, Bool.false_eq_true, if_false]
        exact ⟨Or.inr hwe, hw⟩
  | awaitSuspend wid =>
    unfold pool_step await_suspend
    by_cases hs : s.shutdown_
    · simpa [hs] using ⟨hx, hw⟩
    · cases hts : s.tasks_ with
      | nil =>
        simp only [hs, hts, Bool.false_eq_true, if_false]
        refine ⟨Or.inl rfl, ?_⟩
        intro w2 hw2
        rcases List.mem_append.mp hw2 with h2 | h2
        · exact hw w2 h2
        · simp only [List.mem_singleton] at h2; rw [h2]
      | cons t ts =>
        have hwe : s.waiting_sessions_ = [] := by
          rcases hx with h1 | h1
          · rw [hts] at h1; cases h1
          · exact h1
        simp only [hs, hts, Bool.false_eq_true, if_false]
        exact ⟨Or.inr hwe, hw⟩
  | shutdown =>
    unfold pool_step shutdownPool
    by_cases hs : s.shutdown_
    · simpa [hs] using ⟨hx, hw⟩
    · simp only [hs, Bool.false_eq_true, if_false]
      exact ⟨Or.inr rfl, by simp⟩

theorem pool_inv_run (ops : List PoolOp) :
    ∀ s : PoolState, pool_inv s → pool_inv (pool_run s ops) := by
  induction ops with
  | nil => intro s h; exact h
  | cons op ops ih =>
    intro s h
    exact ih _ (pool_inv_step s op h)

theorem pool_inv_init : pool_inv pool_init :=
  ⟨Or.inl rfl, by simp [pool_init]⟩

/-! ### FIFO lemmas -/

theorem add_task_no_waiters (s : PoolState) (t : TaskMessageM)
    (h1 : s.shutdown_ = false) (h2 : s.waiting_sessions_ = []) :
    add_task s t = ({ s with tasks_ := s.tasks_ ++ [t] }, PoolEvent.enqueued t) := by
  unfold add_task add_task_locked
  rw [h1, h2]
  simp

theorem pool_run_addTasks (ts : List TaskMessageM) :
    ∀ s : PoolState, s.shutdown_ = false → s.waiting_sessions_ = [] →
      pool_run s (ts.map PoolOp.addTask) = { s with tasks_ := s.tasks_ ++ ts } := by
  induction ts with
  | nil => intro s _ _; simp [pool_run]
  | cons t ts ih =>
    intro s h1 h2
    have hstep : pool_step s (PoolOp.addTask t) = { s with tasks_ := s.tasks_ ++ [t] } := by
      show (add_task s t).1 = _
      rw [add_task_no_waiters s t h1 h2]
    have := ih { s with tasks_ := s.tasks_ ++ [t] } h1 h2
    simp only [List.map_cons, pool_run, List.foldl_cons, hstep]
    rw [show List.foldl pool_step { s with tasks_ := s.tasks_ ++ [t] } (ts.map PoolOp.addTask) = pool_run { s with tasks_ := s.tasks_ ++ [t] } (ts.map PoolOp.addTask) from rfl, this]
    simp

theorem drain_spec (l : List TaskMessageM) :
    ∀ s : PoolState, s.shutdown_ = false → s.tasks_ = l → drain l.length s = l := by
  induction l with
  | nil => intro s _ _; simp [drain]
  | cons t ts ih =>
    intro s h1 h2
    have : try_get_task_immediately s = ({ s with tasks_ := ts }, some t) := by
      unfold try_get_task_immediately
      rw [h1, h2]
      simp
    simp only [List.length_cons, drain, this]
    rw [ih { s with tasks_ := ts } h1 rfl]

/-! ### Claim C1 — framing round-trip -/

/-- C1: for every task message built from `(task_id, skill_id, payload)`
(with the `uint32_t` fields in range and the payload within protocol
limits), decoding its encoded wire bytes — the 12-byte header read back via
`read_header`, the remaining bytes as payload — yields exactly the original
task: same `task_id`, `body_size`, skill id, and byte-for-byte identical
payload; on any host byte order. -/
theorem c1_encode_decode_roundtrip (isLE : Bool) (id type : Nat)
    (task_data : List Nat) (h1 : id < 4294967296) (h2 : type < 4294967296)
    (h3 : task_data.length < 4294967296) :
    ∀ m, mkTaskMessage isLE id type task_data = .ok m →
      decodeWire isLE m.wire_bytes =
        ({ task_id := id, body_size := task_data.length, task_type := type }, task_data) ∧
      m.read_header isLE =
        { task_id := id, body_size := task_data.length, task_type := type } ∧
      m.payload_bytes = task_data := by
  intro m hm
  unfold mkTaskMessage at hm
  rw [if_neg (by omega)] at hm
  injection hm with hm
  subst hm
  have hlen : (header_bytes isLE
      { task_id := id, body_size := task_data.length, task_type := type }).length = 12 :=
    header_bytes_length _ _
  have htake : (header_bytes isLE
        { task_id := id, body_size := task_data.length, task_type := type } ++
        task_data).take kHeaderSize =
      header_bytes isLE { task_id := id, body_size := task_data.length, task_type := type } :=
    List.take_left' hlen
  have hdrop : (header_bytes isLE
        { task_id := id, body_size := task_data.length, task_type := type } ++
        task_data).drop kHeaderSize = task_data :=
    List.drop_left' hlen
  have hhd : TaskMessageM.read_header isLE
      { storage := header_bytes isLE
          { task_id := id, body_size := task_data.length, task_type := type } ++ task_data } =
      { task_id := id, body_size := task_data.length, task_type := type } := by
    unfold TaskMessageM.read_header
    rw [if_pos (by simp [List.length_append, hlen, kHeaderSize])]
    rw [htake]
    exact header_roundtrip isLE _ h1 h3 h2
  refine ⟨?_, hhd, hdrop⟩
  unfold decodeWire TaskMessageM.wire_bytes
  rw [hhd, hdrop]

/-- Witness for C1 at a concrete input. -/
theorem c1_encode_decode_roundtrip_witness :
    (7 < 4294967296 ∧ 1 < 4294967296 ∧ ([104, 105] : List Nat).length < 4294967296) ∧
    decodeWire true
        (TaskMessageM.wire_bytes
          { storage := header_bytes true { task_id := 7, body_size := 2, task_type := 1 } ++ [104, 105] }) =
      ({ task_id := 7, body_size := 2, task_type := 1 }, [104, 105]) :=
  ⟨by decide,
   (c1_encode_decode_roundtrip true 7 1 [104, 105] (by decide) (by decide) (by decide)
      _ rfl).1⟩

/-! ### Claim C2 — pool exclusion invariant -/

/-- C2: for every sequence of pool operations (`get_next_task`'s
`await_ready`/`await_suspend`, `add_task`, `add_tasks`, `shutdown`)
starting from the empty pool, at every instant the task deque is empty or
the waiter queue is empty. -/
theorem c2_pool_exclusion_invariant (ops : List PoolOp) :
    pool_excl (pool_run pool_init ops) :=
  (pool_inv_run ops pool_init pool_inv_init).1

/-! ### Claim C3 — FIFO order and oldest-waiter handoff -/

/-- C3: with only `add_task` calls from the empty pool (no waiters
arriving), a consumer polling the pool dry receives the tasks in exactly
the order they were added; and whenever `add_task` runs on a reachable
pool whose waiter queue is non-empty, the task is handed to the front
(oldest) waiter and nothing is placed in the deque. -/
theorem c3_fifo_and_oldest_waiter (ts : List TaskMessageM) (ops : List PoolOp)
    (s : PoolState) (t : TaskMessageM) (w : Waiter) (ws : List Waiter)
    (hs : s = pool_run pool_init ops) (hsd : s.shutdown_ = false)
    (hw : s.waiting_sessions_ = w :: ws) :
    consume_all (pool_run pool_init (ts.map PoolOp.addTask)) = ts ∧
    add_task s t = ({ s with waiting_sessions_ := ws }, PoolEvent.delivered w t) := by
  constructor
  · rw [pool_run_addTasks ts pool_init rfl rfl]
    unfold consume_all
    exact drain_spec ts _ rfl rfl
  · have hinv : pool_inv s := hs ▸ pool_inv_run ops pool_init pool_inv_init
    have hA : w.hasAwaiter = true :=
      hinv.2 w (by rw [hw]; exact List.mem_cons_self w ws)
    have hstep : add_task s t = add_task_locked s t := by
      unfold add_task
      rw [hsd]
      simp
    rw [hstep]
    exact add_task_locked_front_waiter s t w ws hw hA

/-- Witness for C3 at a concrete input: one suspended waiter, one task
list. -/
theorem c3_fifo_and_oldest_waiter_witness :
    ((pool_run pool_init [PoolOp.awaitSuspend 0]).shutdown_ = false ∧
     (pool_run pool_init [PoolOp.awaitSuspend 0]).waiting_sessions_ =
       [{ wid := 0, hasAwaiter := true }]) ∧
    consume_all (pool_run pool_init ([defaultTaskMessage].map PoolOp.addTask)) =
      [defaultTaskMessage] ∧
    add_task (pool_run pool_init [PoolOp.awaitSuspend 0]) defaultTaskMessage =
      ({ tasks_ := [], waiting_sessions_ := [], shutdown_ := false },
       PoolEvent.delivered { wid := 0, hasAwaiter := true } defaultTaskMessage) :=
  ⟨by decide,
   c3_fifo_and_oldest_waiter [defaultTaskMessage] [PoolOp.awaitSuspend 0] _
     defaultTaskMessage { wid := 0, hasAwaiter := true } [] rfl (by decide) (by decide)⟩

/-! ### Claims C4 and C10 — pool shutdown behaviour -/

theorem await_resume_none_invalid (isLE : Bool) :
    (await_resume none).task_id isLE = 0 ∧ (await_resume none).is_valid isLE = false := by
  cases isLE <;> exact ⟨by decide, by decide⟩

/-- C4: `shutdown()` is idempotent — the compare-and-swap lets only the
first call act, a second call returns with no effect and resumes nobody —
it removes every waiter from the waiter queue (the queue is empty
afterwards), and every waiter so resumed has an unfilled result cell, so
its `await_resume` yields the invalid-task sentinel: `task_id = 0`,
`is_valid() = false`. -/
theorem c4_shutdown_idempotent_drains_waiters (s : PoolState) (isLE : Bool) :
    shutdownPool (shutdownPool s).1 = ((shutdownPool s).1, []) ∧
    (s.shutdown_ = false →
      (shutdownPool s).1.waiting_sessions_ = [] ∧
      (shutdownPool s).2 = s.waiting_sessions_.map (fun w => (w, none))) ∧
    (s.shutdown_ = true → shutdownPool s = (s, [])) ∧
    ∀ p ∈ (shutdownPool s).2, p.2 = none ∧
      (await_resume p.2).task_id isLE = 0 ∧
      (await_resume p.2).is_valid isLE = false := by
  by_cases hs : s.shutdown_
  · refine ⟨?_, ?_, ?_, ?_⟩
    · simp [shutdownPool, hs]
    · intro hfalse; rw [hs] at hfalse; cases hfalse
    · intro _; simp [shutdownPool, hs]
    · intro p hp
      simp [shutdownPool, hs] at hp
  · refine ⟨?_, ?_, ?_, ?_⟩
    · simp [shutdownPool, hs]
    · intro _; simp [shutdownPool, hs]
    · intro htrue; rw [htrue] at hs; cases hs rfl
    · intro p hp
      simp only [shutdownPool, hs, Bool.false_eq_true, if_false, List.mem_map] at hp
      obtain ⟨w, _, hpw⟩ := hp
      rw [← hpw]
      exact ⟨rfl, await_resume_none_invalid isLE⟩

/-- Witness for C4 at a concrete pool with one suspended waiter. -/
theorem c4_shutdown_idempotent_drains_waiters_witness :
    shutdownPool (shutdownPool { tasks_ := [], waiting_sessions_ := [{ wid := 3, hasAwaiter := true }], shutdown_ := false }).1 =
      ((shutdownPool { tasks_ := [], waiting_sessions_ := [{ wid := 3, hasAwaiter := true }], shutdown_ := false }).1, []) ∧
    (({ tasks_ := [], waiting_sessions_ := [{ wid := 3, hasAwaiter := true }], shutdown_ := false } : PoolState).shutdown_ = false →
      (shutdownPool { tasks_ := [], waiting_sessions_ := [{ wid := 3, hasAwaiter := true }], shutdown_ := false }).1.waiting_sessions_ = [] ∧
      (shutdownPool { tasks_ := [], waiting_sessions_ := [{ wid := 3, hasAwaiter := true }], shutdown_ := false }).2 =
        [{ wid := 3, hasAwaiter := true }].map (fun w => (w, none))) ∧
    (({ tasks_ := [], waiting_sessions_ := [{ wid := 3, hasAwaiter := true }], shutdown_ := false } : PoolState).shutdown_ = true →
      shutdownPool { tasks_ := [], waiting_sessions_ := [{ wid := 3, hasAwaiter := true }], shutdown_ := false } =
        ({ tasks_ := [], waiting_sessions_ := [{ wid := 3, hasAwaiter := true }], shutdown_ := false }, [])) ∧
    ∀ p ∈ (shutdownPool { tasks_ := [], waiting_sessions_ := [{ wid := 3, hasAwaiter := true }], shutdown_ := false }).2,
      p.2 = none ∧ (await_resume p.2).task_id true = 0 ∧
      (await_resume p.2).is_valid true = false :=
  c4_shutdown_idempotent_drains_waiters
    { tasks_ := [], waiting_sessions_ := [{ wid := 3, hasAwaiter := true }], shutdown_ := false } true

/-- C10: once the pool's shutdown flag is set, the pool never delivers a
task again: `add_task` and `add_tasks` return with the state unchanged and
their tasks discarded, `try_get_task_immediately` (`await_ready`) returns
nothing even when tasks remain in the deque, `await_suspend` resumes
immediately with an unfilled result cell, and `await_resume` on an
unfilled cell yields the invalid-task sentinel (`task_id = 0`). -/
theorem c10_pool_inert_after_shutdown (s : PoolState) (t : TaskMessageM)
    (ts : List TaskMessageM) (wid : Nat) (isLE : Bool)
    (h : s.shutdown_ = true) :
    add_task s t = (s, PoolEvent.dropped t) ∧
    add_tasks s ts = (s, ts.map PoolEvent.dropped) ∧
    try_get_task_immediately s = (s, none) ∧
    await_suspend s wid = (s, SuspendOutcome.resumedInvalid) ∧
    (await_resume none).task_id isLE = 0 ∧
    (await_resume none).is_valid isLE = false := by
  refine ⟨?_, ?_, ?_, ?_, (await_resume_none_invalid isLE).1,
          (await_resume_none_invalid isLE).2⟩
  · unfold add_task; rw [h]; simp
  · unfold add_tasks; rw [h]; simp
  · unfold try_get_task_immediately; rw [h]; simp
  · unfold await_suspend; rw [h]; simp

/-- Witness for C10 at a concrete shut-down pool that still holds an
undelivered task in its deque. -/
theorem c10_pool_inert_after_shutdown_witness :
    add_task { tasks_ := [defaultTaskMessage], waiting_sessions_ := [], shutdown_ := true } defaultTaskMessage =
      ({ tasks_ := [defaultTaskMessage], waiting_sessions_ := [], shutdown_ := true }, PoolEvent.dropped defaultTaskMessage) ∧
    add_tasks { tasks_ := [defaultTaskMessage], waiting_sessions_ := [], shutdown_ := true } [defaultTaskMessage] =
      ({ tasks_ := [defaultTaskMessage], waiting_sessions_ := [], shutdown_ := true }, [defaultTaskMessage].map PoolEvent.dropped) ∧
    try_get_task_immediately { tasks_ := [defaultTaskMessage], waiting_sessions_ := [], shutdown_ := true } =
      ({ tasks_ := [defaultTaskMessage], waiting_sessions_ := [], shutdown_ := true }, none) ∧
    await_suspend { tasks_ := [defaultTaskMessage], waiting_sessions_ := [], shutdown_ := true } 0 =
      ({ tasks_ := [defaultTaskMessage], waiting_sessions_ := [], shutdown_ := true }, SuspendOutcome.resumedInvalid) ∧
    (await_resume none).task_id true = 0 ∧
    (await_resume none).is_valid true = false :=
  c10_pool_inert_after_shutdown
    { tasks_ := [defaultTaskMessage], waiting_sessions_ := [], shutdown_ := true }
    defaultTaskMessage [defaultTaskMessage] 0 true rfl

/-! ### Claim C5 — maximum body size enforcement -/

/-- C5 as stated is false for the manager session: for a response header
whose `body_size` exceeds the 16 MiB default maximum (here
`default_max_frame_size + 1`) with a matching correlation id, the session
issues the body read of that full size and classifies the response
normally — it neither errors nor skips the read
(Session.cpp:109-115 has no size check). -/
theorem c5_counterexample :
    session_issued_reads 7
        { task_id := 7, body_size := default_max_frame_size + 1, task_type := 1 } =
      [12, 16777217] ∧
    session_classify 7 1
        { task_id := 7, body_size := default_max_frame_size + 1, task_type := 1 } =
      TaskOutcome.completed := by
  constructor
  · decide
  · decide

/-- C5 amended: only the worker's blocking frame reader enforces the
maximum body size (parameter defaulting to 16 MiB): a header announcing a
larger body is a fatal framing error raised after the 12-byte header read
and before any body read.  The manager session enforces no maximum: it
issues the body read for any nonzero announced `body_size` whenever the
correlation id matches. -/
theorem c5_amended_only_worker_reader_enforces (isLE : Bool) (input : List Nat)
    (max_frame_size req_task_id : Nat) (resp : THeader)
    (h1 : kHeaderSize ≤ input.length)
    (h2 : max_frame_size < (header_of_bytes isLE (input.take kHeaderSize)).body_size)
    (h3 : resp.task_id = req_task_id) (h4 : 0 < resp.body_size) :
    read_task isLE input max_frame_size =
      (.error "read_task: body_size exceeds max_frame_size", [kHeaderSize]) ∧
    session_issued_reads req_task_id resp = [kHeaderSize, resp.body_size] := by
  constructor
  · unfold read_task
    rw [if_neg (by omega)]
    rw [if_pos h2]
  · unfold session_issued_reads
    rw [if_neg (by simp [h3]), if_pos h4]

/-- Witness for the amended C5 at a concrete oversized frame
(`body_size = 16777217 = 16 MiB + 1`). -/
theorem c5_amended_only_worker_reader_enforces_witness :
    (kHeaderSize ≤ ([1, 0, 0, 0, 1, 0, 0, 1, 1, 0, 0, 0] : List Nat).length ∧
     default_max_frame_size <
       (header_of_bytes true (([1, 0, 0, 0, 1, 0, 0, 1, 1, 0, 0, 0] : List Nat).take kHeaderSize)).body_size) ∧
    read_task true [1, 0, 0, 0, 1, 0, 0, 1, 1, 0, 0, 0] default_max_frame_size =
      (.error "read_task: body_size exceeds max_frame_size", [kHeaderSize]) ∧
    session_issued_reads 7 { task_id := 7, body_size := 16777217, task_type := 1 } =
      [kHeaderSize, 16777217] :=
  ⟨⟨by decide, by decide⟩,
   c5_amended_only_worker_reader_enforces true [1, 0, 0, 0, 1, 0, 0, 1, 1, 0, 0, 0]
     default_max_frame_size 7 { task_id := 7, body_size := 16777217, task_type := 1 }
     (by decide) (by decide) rfl (by decide)⟩

/-! ### Claim C6 — unknown skill at the worker -/

/-- C6 as stated is false: for a request with unregistered skill id 9, the
worker's response header carries the request's own skill id (9), not a
differing one, and the manager session therefore classifies the task as
completed rather than failed-and-requeued
(TaskProcessor.cpp:50-52 returns a diagnostic payload;
BlockingRuntime.cpp:199-204 echoes `header.task_type` into the response). -/
theorem c6_counterexample :
    (worker_response { task_id := 5, body_size := 3, task_type := 9 } "abc").1.task_type = 9 ∧
    session_classify 5 9
        (worker_response { task_id := 5, body_size := 3, task_type := 9 } "abc").1 =
      TaskOutcome.completed := by
  constructor
  · rfl
  · rfl

/-- C6 amended: for every request whose skill id has no handler in the
worker's dispatch switch (not 1, 2 or 3), the worker responds with a frame
whose skill id equals the request's and whose payload is the diagnostic
string `Unknown skill_id: N`; the manager session consequently classifies
the task as completed and does not requeue it. -/
theorem c6_amended_unknown_skill_counts_completed (h : THeader) (payload : String)
    (h1 : h.task_type ≠ 1) (h2 : h.task_type ≠ 2) (h3 : h.task_type ≠ 3) :
    worker_response h payload =
      ({ task_id := h.task_id,
         body_size := ("Unknown skill_id: " ++ toString h.task_type).utf8ByteSize,
         task_type := h.task_type },
       "Unknown skill_id: " ++ toString h.task_type) ∧
    session_classify h.task_id h.task_type (worker_response h payload).1 =
      TaskOutcome.completed := by
  have hw : worker_response h payload =
      ({ task_id := h.task_id,
         body_size := ("Unknown skill_id: " ++ toString h.task_type).utf8ByteSize,
         task_type := h.task_type },
       "Unknown skill_id: " ++ toString h.task_type) := by
    unfold worker_response TaskProcessor.process
    simp [h1, h2, h3]
  refine ⟨hw, ?_⟩
  rw [hw]
  unfold session_classify
  simp

/-- Witness for the amended C6 at a concrete unknown skill id 42. -/
theorem c6_amended_unknown_skill_counts_completed_witness :
    (({ task_id := 8, body_size := 1, task_type := 42 } : THeader).task_type ≠ 1 ∧
     ({ task_id := 8, body_size := 1, task_type := 42 } : THeader).task_type ≠ 2 ∧
     ({ task_id := 8, body_size := 1, task_type := 42 } : THeader).task_type ≠ 3) ∧
    worker_response { task_id := 8, body_size := 1, task_type := 42 } "x" =
      ({ task_id := 8,
         body_size := ("Unknown skill_id: " ++ toString (42 : Nat)).utf8ByteSize,
         task_type := 42 },
       "Unknown skill_id: " ++ toString (42 : Nat)) ∧
    session_classify 8 42
        (worker_response { task_id := 8, body_size := 1, task_type := 42 } "x").1 =
      TaskOutcome.completed :=
  ⟨by decide,
   c6_amended_unknown_skill_counts_completed
     { task_id := 8, body_size := 1, task_type := 42 } "x"
     (by decide) (by decide) (by decide)⟩

/-! ### Claim C7 — session state monotonicity -/

/-- C7 as stated is false: in the valid operation sequence "run, coroutine
exits normally, request_termination" (exactly what
`SessionManager::terminate_all_sessions` produces when it runs after a
session already finished, SessionManager.cpp:89-101), the state sequence
is `INITIALIZING, ACTIVE, TERMINATED, COMPLETING`: the terminal state
`TERMINATED` is followed by the non-terminal `COMPLETING`, because
`request_termination` stores `COMPLETING` unconditionally
(Session.cpp:207-213). -/
theorem c7_counterexample :
    session_valid_ops
        [SessOp.runStart, SessOp.coroExitTerminated, SessOp.requestTermination] = true ∧
    session_states
        [SessOp.runStart, SessOp.coroExitTerminated, SessOp.requestTermination] =
      [SessState.INITIALIZING, SessState.ACTIVE, SessState.TERMINATED,
       SessState.COMPLETING] ∧
    terminal_state SessState.TERMINATED = true ∧
    terminal_state SessState.COMPLETING = false := by
  refine ⟨rfl, rfl, rfl, rfl⟩

/-- C7 amended: once a terminal state (`TERMINATED` or `ERROR_STATE`) is
reached, no operation other than `request_termination` moves the session
to a non-terminal state; `request_termination` is the single exception, as
it stores `COMPLETING` unconditionally, even from a terminal state. -/
theorem c7_amended_terminal_stable_except_request_termination
    (pre : List SessOp) (op : SessOp)
    (hv : session_valid_ops (pre ++ [op]) = true)
    (hop : op ≠ SessOp.requestTermination)
    (ht : terminal_state (session_state_after pre) = true) :
    terminal_state (session_state_after (pre ++ [op])) = true := by
  have hsplit : session_state_after (pre ++ [op]) =
      session_step (session_state_after pre) op := by
    unfold session_state_after
    rw [List.foldl_append]
    rfl
  rw [hsplit]
  cases op with
  | runStart =>
    cases pre with
    | nil => exact absurd ht (by decide)
    | cons p pre2 =>
      exfalso
      have : session_valid_ops (p :: (pre2 ++ [SessOp.runStart])) = true := by
        simpa using hv
      unfold session_valid_ops at this
      simp [List.all_append] at this
  | coroExitTerminated => rfl
  | coroExitError => rfl
  | requestTermination => exact absurd rfl hop

/-- Witness for the amended C7: after "run, error exit" the session is in
`ERROR_STATE`; a further coroutine exit keeps it terminal. -/
theorem c7_amended_terminal_stable_witness :
    (session_valid_ops
        ([SessOp.runStart, SessOp.coroExitError] ++ [SessOp.coroExitTerminated]) = true ∧
     terminal_state
        (session_state_after [SessOp.runStart, SessOp.coroExitError]) = true) ∧
    terminal_state
        (session_state_after
          ([SessOp.runStart, SessOp.coroExitError] ++ [SessOp.coroExitTerminated])) = true :=
  ⟨⟨by decide, by decide⟩,
   c7_amended_terminal_stable_except_request_termination
     [SessOp.runStart, SessOp.coroExitError] SessOp.coroExitTerminated
     (by decide) (by decide) (by decide)⟩

/-! ### Claim C8 — requeue preservation -/

/-- C8 as stated is false: a session requeue after pool shutdown does not
make the task reappear.  Here the session holds a valid acquired task
(task_id 7) and receives a mismatched response (task_id 8), so it
classifies the task failed and calls `add_task`; but the pool was shut
down and `add_task` returns with the pool unchanged — its deque stays
empty and the task is lost (TaskMessagePool.cpp:60-62). -/
theorem c8_counterexample :
    session_classify
        (TaskMessageM.task_id true { storage := [7, 0, 0, 0, 0, 0, 0, 0, 1, 0, 0, 0] })
        (TaskMessageM.task_type true { storage := [7, 0, 0, 0, 0, 0, 0, 0, 1, 0, 0, 0] })
        { task_id := 8, body_size := 0, task_type := 1 } =
      TaskOutcome.failedRequeued ∧
    session_handle_response true { storage := [7, 0, 0, 0, 0, 0, 0, 0, 1, 0, 0, 0] }
        { task_id := 8, body_size := 0, task_type := 1 }
        { tasks_ := [], waiting_sessions_ := [], shutdown_ := true } =
      { tasks_ := [], waiting_sessions_ := [], shutdown_ := true } := by
  constructor
  · decide
  · decide

/-- C8 amended: every task a session requeues — after a correlation or
skill-id mismatch (classification `failedRequeued`), or after an I/O error
with an acquired valid task — reappears at the back of the pool's deque as
the very same byte-identical `TaskMessage`, provided the pool is not shut
down and no consumer is waiting (with a waiter present `add_task` hands
the task straight to the oldest waiter; after shutdown it is discarded). -/
theorem c8_amended_requeue_preserves_task (isLE : Bool) (t : TaskMessageM)
    (resp : THeader) (pool : PoolState)
    (h1 : pool.shutdown_ = false) (h2 : pool.waiting_sessions_ = [])
    (h3 : session_classify (t.task_id isLE) (t.task_type isLE) resp =
      TaskOutcome.failedRequeued)
    (h4 : t.is_valid isLE = true) :
    (session_handle_response isLE t resp pool).tasks_ = pool.tasks_ ++ [t] ∧
    (session_io_error_requeue isLE t pool).tasks_ = pool.tasks_ ++ [t] ∧
    (pool.tasks_ ++ [t]).getLast? = some t := by
  have hadd : (add_task pool t).1 = { pool with tasks_ := pool.tasks_ ++ [t] } := by
    rw [add_task_no_waiters pool t h1 h2]
  refine ⟨?_, ?_, by simp⟩
  · unfold session_handle_response
    rw [h3]
    show (add_task pool t).1.tasks_ = pool.tasks_ ++ [t]
    rw [hadd]
  · unfold session_io_error_requeue
    rw [if_pos h4, hadd]

/-- Witness for the amended C8: a valid task with a skill-mismatched
response lands byte-identically at the back of a live pool's deque. -/
theorem c8_amended_requeue_preserves_task_witness :
    (({ tasks_ := [defaultTaskMessage], waiting_sessions_ := [], shutdown_ := false } : PoolState).shutdown_ = false ∧
     session_classify
        (TaskMessageM.task_id true { storage := [7, 0, 0, 0, 0, 0, 0, 0, 1, 0, 0, 0] })
        (TaskMessageM.task_type true { storage := [7, 0, 0, 0, 0, 0, 0, 0, 1, 0, 0, 0] })
        { task_id := 7, body_size := 0, task_type := 2 } = TaskOutcome.failedRequeued ∧
     TaskMessageM.is_valid true { storage := [7, 0, 0, 0, 0, 0, 0, 0, 1, 0, 0, 0] } = true) ∧
    (session_handle_response true { storage := [7, 0, 0, 0, 0, 0, 0, 0, 1, 0, 0, 0] }
        { task_id := 7, body_size := 0, task_type := 2 }
        { tasks_ := [defaultTaskMessage], waiting_sessions_ := [], shutdown_ := false }).tasks_ =
      [defaultTaskMessage] ++ [{ storage := [7, 0, 0, 0, 0, 0, 0, 0, 1, 0, 0, 0] }] ∧
    (session_io_error_requeue true { storage := [7, 0, 0, 0, 0, 0, 0, 0, 1, 0, 0, 0] }
        { tasks_ := [defaultTaskMessage], waiting_sessions_ := [], shutdown_ := false }).tasks_ =
      [defaultTaskMessage] ++ [{ storage := [7, 0, 0, 0, 0, 0, 0, 0, 1, 0, 0, 0] }] ∧
    ([defaultTaskMessage] ++
        [({ storage := [7, 0, 0, 0, 0, 0, 0, 0, 1, 0, 0, 0] } : TaskMessageM)]).getLast? =
      some { storage := [7, 0, 0, 0, 0, 0, 0, 0, 1, 0, 0, 0] } :=
  ⟨⟨rfl, by decide, by decide⟩,
   c8_amended_requeue_preserves_task true
     { storage := [7, 0, 0, 0, 0, 0, 0, 0, 1, 0, 0, 0] }
     { task_id := 7, body_size := 0, task_type := 2 }
     { tasks_ := [defaultTaskMessage], waiting_sessions_ := [], shutdown_ := false }
     rfl rfl (by decide) (by decide)⟩

/-! ### Claim C9 — wire header layout and endianness -/

/-- C9 as stated is false: the header bytes are produced by `memcpy` of
host-order `uint32_t` fields, not by an endianness-explicit encoder.  On a
non-little-endian host, the message built from
`(task_id 1, skill_id 3, empty payload)` stores header bytes
`[0,0,0,1, 0,0,0,0, 0,0,0,3]`, which differ from the specified
little-endian layout `[1,0,0,0, 0,0,0,0, 3,0,0,0]`. -/
theorem c9_counterexample :
    mkTaskMessage false 1 3 [] =
      .ok { storage := [0, 0, 0, 1, 0, 0, 0, 0, 0, 0, 0, 3] } ∧
    TaskMessageM.wire_bytes { storage := [0, 0, 0, 1, 0, 0, 0, 0, 0, 0, 0, 3] } ≠
      le_wire_header { task_id := 1, body_size := 0, task_type := 3 } ++ [] := by
  constructor
  · rfl
  · decide

/-- C9 amended: the encoded wire header is exactly 12 bytes holding the
three `uint32_t` fields in the order `task_id`, `body_size`, skill id —
but in host byte order (a `memcpy` of the struct).  On a little-endian
host this coincides with the spec's little-endian layout; on other hosts
it does not (see the counterexample). -/
theorem c9_amended_header_host_order (isLE : Bool) (id type : Nat)
    (task_data : List Nat) (h : task_data.length ≤ 4294967295) :
    ∃ m, mkTaskMessage isLE id type task_data = .ok m ∧
      m.wire_bytes =
        header_bytes isLE
          { task_id := id, body_size := task_data.length, task_type := type } ++ task_data ∧
      (m.wire_bytes.take kHeaderSize).length = 12 ∧
      (isLE = true →
        m.wire_bytes =
          le_wire_header
            { task_id := id, body_size := task_data.length, task_type := type } ++ task_data) := by
  have hmk : mkTaskMessage isLE id type task_data =
      .ok ⟨header_bytes isLE ⟨id, task_data.length, type⟩ ++ task_data⟩ := by
    unfold mkTaskMessage
    rw [if_neg (by omega)]
  refine ⟨_, hmk, rfl, ?_, ?_⟩
  · show ((header_bytes isLE ⟨id, task_data.length, type⟩ ++ task_data).take kHeaderSize).length = 12
    rw [List.take_left' (show (header_bytes isLE ⟨id, task_data.length, type⟩).length = kHeaderSize by
      simp [header_bytes_length, kHeaderSize])]
    exact header_bytes_length isLE _
  · intro hLE
    subst hLE
    show header_bytes true ⟨id, task_data.length, type⟩ ++ task_data = _
    rfl

/-- Witness for the amended C9 at a concrete little-endian message. -/
theorem c9_amended_header_host_order_witness :
    (([9] : List Nat).length ≤ 4294967295) ∧
    ∃ m, mkTaskMessage true 2 5 [9] = .ok m ∧
      m.wire_bytes =
        header_bytes true { task_id := 2, body_size := 1, task_type := 5 } ++ [9] ∧
      (m.wire_bytes.take kHeaderSize).length = 12 ∧
      (true = true →
        m.wire_bytes =
          le_wire_header { task_id := 2, body_size := 1, task_type := 5 } ++ [9]) :=
  ⟨by decide, c9_amended_header_host_order true 2 5 [9] (by decide)⟩
